import Mathlib

/-!
Shallow embedding of the TrueNAS password-changer appliance clients
(`src/app/truenas_websocket_client.py`, the session-handshake dialect, and
`src/app/truenas_client.py`, the direct JSON-RPC dialect), together with
theorems settling the frozen claims about them.

Modelling conventions:
* Python exceptions become `Except` values; the single client error type
  `TrueNASAPIError` is a structure `(message, code, reason)` mirroring the
  Python class.
* The wire is modelled as a list of incoming items (`WireIn`): a decoded
  message, undecodable text, or an empty frame; exhausting the list stands
  for a transport failure of the blocking `recv`.
* External library calls (passlib crypt verification, the SMB probe) are
  modelled as explicit parameters: `CryptSchemes` carries one recompute
  function per crypt family (passlib `verify` is true iff the plaintext
  re-hashes, with the stored hash's salt and parameters, to the stored
  value), and the SMB probe outcome is a three-valued input.
* `login` and `set_password` issue their registry queries through `_call`;
  their models take the outcome of that call as an input
  (`Except TrueNASAPIError (List UserRecord)`), while `_call` itself is
  modelled at the wire level (`wsCall`, `rpcCall`).
-/

namespace TrueNASPC

deriving instance DecidableEq for Except

/-- Python `s.startswith(marker)`, expressed over the character list of the
string so that it evaluates inside the kernel. -/
def pyStartsWith (s marker : String) : Bool := marker.data.isPrefixOf s.data

/-- Mirrors the Python `TrueNASAPIError(message, code=None, reason=None)`
exception class shared by both clients. -/
structure TrueNASAPIError where
  message : String
  code : Option Int := none
  reason : Option String := none
deriving DecidableEq, Repr

/-- A JSON scalar value, as far as the clients inspect one; where the wire
carries a list (for example a parameter list) the model uses `List JVal`. -/
inductive JVal where
  | null
  | bool (b : Bool)
  | num (n : Int)
  | str (s : String)
deriving DecidableEq, Repr

/-- The `error` object of a session-dialect error envelope, with the keys the
client reads: `reason`, `message` and `error` (the numeric code). -/
structure WireError where
  reason : Option String := none
  message : Option String := none
  errCode : Option Int := none
deriving DecidableEq, Repr

/-- The value found under the `error` key: the client branches on
`isinstance(error, dict)`, so it is either a dict or some other value whose
`str(·)` rendering is `s`. -/
inductive ErrVal where
  | obj (e : WireError)
  | prim (s : String)
deriving DecidableEq, Repr

/-- A decoded incoming message of the session dialect, with the keys the
client reads: `id`, `msg`, `error` (present iff the key exists), `result`. -/
structure WSResponse where
  id : Option String := none
  msg : Option String := none
  error : Option ErrVal := none
  result : Option JVal := none
deriving DecidableEq, Repr

/-- One item produced by `self._ws.recv()`: an empty frame, text that fails
`json.loads`, or a decoded message. -/
inductive WireIn where
  | emptyText
  | badJson (s : String)
  | msg (r : WSResponse)
deriving DecidableEq, Repr

/-- An exception arising inside a client operation, before the operation's
`except` chain translates it: a `websocket.WebSocketException`, a
`json.JSONDecodeError`, an already-typed `TrueNASAPIError`, or any other
`Exception` (each carrying its `str(·)` rendering). -/
inductive PyExn where
  | wsExn (s : String)
  | jsonExn (s : String)
  | apiErr (e : TrueNASAPIError)
  | otherExn (s : String)
deriving DecidableEq, Repr

/-- The `except` chain of `TrueNASWebSocketClient._call` (lines 132-139). -/
def wrapCallExn : PyExn → TrueNASAPIError
  | .wsExn s => { message := "WebSocket error: " ++ s }
  | .jsonExn s => { message := "Invalid JSON response: " ++ s }
  | .apiErr e => e
  | .otherExn s => { message := "API call failed: " ++ s }

/-- The `except` chain of `TrueNASWebSocketClient.connect` (lines 184-191). -/
def wrapConnectExn : PyExn → TrueNASAPIError
  | .wsExn s => { message := "Failed to connect: " ++ s }
  | .jsonExn s => { message := "Invalid response during connect: " ++ s }
  | .apiErr e => e
  | .otherExn s => { message := "Connection failed: " ++ s }

/-- The `except` chain of `TrueNASWebSocketClient.login` (lines 270-273):
`TrueNASAPIError` is re-raised, every other exception is wrapped. -/
def wrapLoginExn : PyExn → TrueNASAPIError
  | .wsExn s => { message := "Authentication failed: " ++ s }
  | .jsonExn s => { message := "Authentication failed: " ++ s }
  | .apiErr e => e
  | .otherExn s => { message := "Authentication failed: " ++ s }

/-- The `except` chain of `TrueNASWebSocketClient.set_password`
(lines 305-308). -/
def wrapSetPasswordExn : PyExn → TrueNASAPIError
  | .wsExn s => { message := "Password change request failed: " ++ s }
  | .jsonExn s => { message := "Password change request failed: " ++ s }
  | .apiErr e => e
  | .otherExn s => { message := "Password change request failed: " ++ s }

/-- Runs an operation body under one of the `except` chains: a normal value
passes through, every exception is translated to a `TrueNASAPIError`. -/
def runOp {α : Type} (wrap : PyExn → TrueNASAPIError) :
    Except PyExn α → Except TrueNASAPIError α
  | .ok a => .ok a
  | .error e => .error (wrap e)

/-- The mutable state of a `TrueNASWebSocketClient` instance: `connected`
models `self._ws is not None`, `socketOpen` whether the underlying socket is
still open, `requestId` is `self._request_id`, and `sessionId` and `apiKey`
are `self._session_id` and `self._api_key`. -/
structure WSClient where
  connected : Bool
  socketOpen : Bool
  requestId : Nat
  sessionId : Option String := none
  apiKey : Option String := none
deriving DecidableEq, Repr

/-- The request payload sent by `TrueNASWebSocketClient._call`:
`{"id": request_id, "msg": "method", "method": method, "params": params or []}`,
with `id` both as the wire string and as the counter value it renders. -/
structure SentReq where
  idNum : Nat
  id : String
  method : String
  params : List JVal
deriving DecidableEq, Repr

/-- The response-reading loop of `TrueNASWebSocketClient._call`
(lines 104-116): read a message; an empty frame raises, undecodable text
raises `json.JSONDecodeError`, a message whose `id` does not equal the
request id is skipped, and the loop returns on the first matching message.
An exhausted stream stands for the blocking `recv` failing with a
`websocket.WebSocketException`. -/
def recvLoop (rid : String) : List WireIn → Except PyExn WSResponse × List WireIn
  | [] => (.error (.wsExn "Connection to remote host was lost."), [])
  | .emptyText :: rest =>
      (.error (.apiErr { message := "Empty response from server" }), rest)
  | .badJson s :: rest => (.error (.jsonExn s), rest)
  | .msg r :: rest =>
      if r.id = some rid then (.ok r, rest)
      else if (r.msg = some "result" ∨ r.msg = some "error") ∧ r.id = some rid then
        (.ok r, rest)
      else recvLoop rid rest

/-- The error/result handling of `TrueNASWebSocketClient._call`
(lines 119-130) applied to the matched response: an error envelope
(`msg == "error"` or an `error` key) raises a `TrueNASAPIError` built from
the error object, otherwise `response.get("result")` is returned. -/
def processResponse (r : WSResponse) : Except PyExn (Option JVal) :=
  if r.msg = some "error" ∨ r.error.isSome then
    match r.error with
    | some (.obj e) =>
        .error (.apiErr { message := (e.reason.getD (e.message.getD "Unknown error")),
                          code := e.errCode, reason := e.reason })
    | some (.prim s) => .error (.apiErr { message := s })
    | none => .error (.apiErr { message := "Unknown error" })
  else .ok r.result

/-- Model of `TrueNASWebSocketClient._call` (session dialect): raise when not
connected; increment the per-connection counter and stringify it as the
request id; send the payload; loop over the incoming stream until the
matching response; translate the matched envelope; wrap every exception
through the method's `except` chain. Returns the call result, the new client
state, the unconsumed remainder of the stream, and the sent payload. -/
def wsCall (st : WSClient) (stream : List WireIn) (method : String)
    (params : List JVal) :
    Except TrueNASAPIError (Option JVal) × WSClient × List WireIn × Option SentReq :=
  if st.connected = false then
    (.error { message := "Not connected. Call connect() first." }, st, stream, none)
  else
    let rid := st.requestId + 1
    let st2 := { st with requestId := rid }
    let sent : SentReq := { idNum := rid, id := toString rid, method := method,
                            params := params }
    match recvLoop (toString rid) stream with
    | (.ok r, rest) => (runOp wrapCallExn (processResponse r), st2, rest, some sent)
    | (.error e, rest) => (.error (wrapCallExn e), st2, rest, some sent)

/-- A sequence of `_call` invocations on one websocket-dialect connection:
each list element supplies the method, parameters and the incoming stream for
that call; the result collects every sent payload and the final state. -/
def wsCallSeq (st : WSClient) :
    List (String × List JVal × List WireIn) → List SentReq × WSClient
  | [] => ([], st)
  | (m, p, s) :: rest =>
      let out := wsCall st s m p
      let tail := wsCallSeq out.2.1 rest
      ((out.2.2.2.toList ++ tail.1), tail.2)

/-- Model of `TrueNASWebSocketClient.disconnect` (lines 193-200): if a socket
object exists, close it with every exception swallowed, then drop the
reference. No other attribute is touched. -/
def wsDisconnect (st : WSClient) : WSClient :=
  let st2 := if st.connected then { st with socketOpen := false } else st
  { st2 with connected := false }

/-- The mutable state of a `TrueNASClient` instance (direct JSON-RPC
dialect): `connected` models `self._ws is not None`, `messageId` is
`self._message_id`, `authToken` is `self._auth_token`. -/
structure RPCClient where
  connected : Bool
  socketOpen : Bool
  messageId : Nat
  authToken : Option String := none
deriving DecidableEq, Repr

/-- The `error` object of a direct-dialect error envelope, with the keys the
client reads: `message`, and inside `data`: `error`, `reason`, `errname`. -/
structure RPCError where
  message : Option String := none
  dataError : Option Int := none
  dataReason : Option String := none
  dataErrname : Option String := none
deriving DecidableEq, Repr

/-- A decoded incoming message of the direct dialect: correlation id (an
integer in this dialect), optional `error` object, optional `result`. -/
structure RPCResponse where
  id : Option Int := none
  error : Option RPCError := none
  result : Option JVal := none
deriving DecidableEq, Repr

/-- One item produced by `recv` in the direct-dialect client: undecodable
text or a decoded message (this client has no empty-frame check). -/
inductive RPCIn where
  | badJson (s : String)
  | msg (r : RPCResponse)
deriving DecidableEq, Repr

/-- The request payload sent by `TrueNASClient._call`:
`{"jsonrpc": "2.0", "id": n, "method": method, "params": params?}`. -/
structure RPCSent where
  idNum : Nat
  method : String
  params : Option (List JVal)
deriving DecidableEq, Repr

/-- Model of `TrueNASClient._call` (direct JSON-RPC dialect, lines 96-140):
raise when not connected; take the next counter value as the id; send; read
exactly ONE incoming message and treat it as the response — there is no
correlation-id comparison and no skipping loop in this client; an `error`
key raises, otherwise `data.get("result")` is returned. -/
def rpcCall (st : RPCClient) (stream : List RPCIn) (method : String)
    (params : Option (List JVal)) :
    Except TrueNASAPIError (Option JVal) × RPCClient × List RPCIn × Option RPCSent :=
  if st.connected = false then
    (.error { message := "Not connected to TrueNAS" }, st, stream, none)
  else
    let rid := st.messageId + 1
    let st2 := { st with messageId := rid }
    let sent : RPCSent := { idNum := rid, method := method, params := params }
    match stream with
    | [] =>
        (.error { message := "WebSocket error: Connection to remote host was lost." },
         st2, [], some sent)
    | .badJson s :: rest =>
        (.error { message := "Invalid JSON response: " ++ s }, st2, rest, some sent)
    | .msg r :: rest =>
        match r.error with
        | some e =>
            (.error { message := e.message.getD "Unknown error",
                      code := e.dataError,
                      reason := (e.dataReason.orElse fun _ => e.dataErrname) },
             st2, rest, some sent)
        | none => (.ok r.result, st2, rest, some sent)

/-- A sequence of `_call` invocations on one direct-dialect connection. -/
def rpcCallSeq (st : RPCClient) :
    List (String × Option (List JVal) × List RPCIn) → List RPCSent × RPCClient
  | [] => ([], st)
  | (m, p, s) :: rest =>
      let out := rpcCall st s m p
      let tail := rpcCallSeq out.2.1 rest
      ((out.2.2.2.toList ++ tail.1), tail.2)

/-- Model of `TrueNASClient.disconnect` (lines 86-94): if a socket object
exists, close it (exceptions swallowed) and drop the reference; in every
case clear the auth token. -/
def rpcDisconnect (st : RPCClient) : RPCClient :=
  let st2 := if st.connected then
    { st with socketOpen := false, connected := false } else st
  { st2 with authToken := none }

/-- The fields of a `user.query` row that `login` and `set_password` read:
numeric `id`, `username`, `unixhash` (absent key modelled as `none`),
`twofactor_auth_configured`, `smb`. -/
structure UserRecord where
  id : Int
  username : String
  unixhash : Option String := none
  twofactor_auth_configured : Bool := false
  smb : Bool := false
deriving DecidableEq, Repr

/-- Python truthiness of an optional string: `not x` is true when the value
is absent (`None`) or the empty string. -/
def optFalsy : Option String → Bool
  | none => true
  | some s => s = ""

/-- Modelled from the spec: the passlib crypt primitives
(`sha512_crypt`, `sha256_crypt`, `md5_crypt`), which are an external
library, not code under `src/`. Each field recomputes the scheme's hash of a
plaintext using the salt and parameters of a stored hash string; per the
spec, scheme verification `returns true iff the plaintext re-hashes
(scheme-appropriately) to the stored value`. -/
structure CryptSchemes where
  sha512_hash : String → String → String
  sha256_hash : String → String → String
  md5_hash : String → String → String

/-- Passlib `verify` for one scheme: true iff re-hashing the plaintext with
the stored hash's salt and parameters reproduces the stored hash. -/
def cryptVerify (recompute : String → String → String)
    (password storedHash : String) : Bool :=
  recompute password storedHash = storedHash

/-- The hash-verification dispatch of `TrueNASWebSocketClient.login`
(lines 256-263): branch on the stored hash's leading scheme marker —
`$6$` is SHA-512 crypt, `$5$` SHA-256 crypt, `$1$` MD5 crypt — and raise an
unsupported-format `TrueNASAPIError` on any other marker. -/
def verifyHash (cs : CryptSchemes) (password storedHash : String) :
    Except TrueNASAPIError Bool :=
  if pyStartsWith storedHash "$6$" then
    .ok (cryptVerify cs.sha512_hash password storedHash)
  else if pyStartsWith storedHash "$5$" then
    .ok (cryptVerify cs.sha256_hash password storedHash)
  else if pyStartsWith storedHash "$1$" then
    .ok (cryptVerify cs.md5_hash password storedHash)
  else
    .error { message := "Unsupported hash format",
             reason := some "Unsupported password hash format" }

/-- Outcome of the SMB probe block of `login` (lines 236-246): the
`SMBConnection.connect` call returned truthy, returned falsy, or some step
of the probe (import, construction, connect) raised an exception. -/
inductive SmbOutcome where
  | connected
  | refused
  | raised
deriving DecidableEq, Repr

/-- Only a truthy `connect` counts as probe success; a falsy return and an
exception both fall through to hash verification. -/
def smbSuccess : SmbOutcome → Bool
  | .connected => true
  | _ => false

/-- Model of `TrueNASWebSocketClient.login` (lines 202-273). The
`user.query` round trip through `_call` is abstracted as its outcome
`queryOutcome` (a raised `TrueNASAPIError` or the returned row list), the
SMB probe as `smb`, and the passlib primitives as `cs`; the remaining
control flow follows the source line by line: missing API key raises; an
empty row list raises invalid-credentials; a configured second factor with
no token supplied raises before any password check; an SMB-eligible record
tries the probe and returns true on success; otherwise a falsy stored hash
raises invalid-credentials, and hash verification decides between success
and invalid-credentials, with an unsupported marker raising its own error.
A raised `TrueNASAPIError` passes the `except` chain unchanged. The key
gate is Python truthiness (`if not self._api_key:`, line 220), so an absent
key and an empty-string key both raise before any query. -/
def loginModel (apiKey : Option String) (cs : CryptSchemes) (smb : SmbOutcome)
    (queryOutcome : Except TrueNASAPIError (List UserRecord))
    (password : String) (otpToken : Option String) :
    Except TrueNASAPIError Bool :=
  if optFalsy apiKey then
    .error { message := "API key required for password verification" }
  else
    match queryOutcome with
    | .error e => .error (wrapLoginExn (.apiErr e))
    | .ok [] =>
        .error { message := "Invalid username or password",
                 reason := some "Invalid username or password" }
    | .ok (user :: _) =>
        if user.twofactor_auth_configured ∧ optFalsy otpToken then
          .error { message := "OTP token required",
                   reason := some "Two-factor authentication required" }
        else if user.smb ∧ smbSuccess smb then
          .ok true
        else
          match user.unixhash with
          | none =>
              .error { message := "Invalid username or password",
                       reason := some "Invalid username or password" }
          | some storedHash =>
              if storedHash = "" then
                .error { message := "Invalid username or password",
                         reason := some "Invalid username or password" }
              else
                match verifyHash cs password storedHash with
                | .error e => .error (wrapLoginExn (.apiErr e))
                | .ok true => .ok true
                | .ok false =>
                    .error { message := "Invalid username or password",
                             reason := some "Invalid username or password" }

/-- Model of `TrueNASWebSocketClient.set_password` (lines 275-308). The
`user.query` round trip is abstracted as `queryOutcome` and the `user.update`
round trip as `updateOutcome`, a function of the exact arguments the source
passes: the first row's numeric id and the new password. The second
component of the result records the arguments of the issued update call
(`none` when no update call was issued). The source consults no login/session
state: its only preconditions are the configured API key — gated by Python
truthiness (`if not self._api_key:`, line 288), so an absent and an
empty-string key both raise — and, inside `_call`, the open connection
(whose absence reaches us as a failed `queryOutcome`). -/
def wsSetPassword (apiKey : Option String)
    (queryOutcome : Except TrueNASAPIError (List UserRecord))
    (updateOutcome : Int → String → Except TrueNASAPIError (Option JVal))
    (username newPassword : String) :
    Except TrueNASAPIError Bool × Option (Int × String) :=
  if optFalsy apiKey then
    (.error { message := "Not authenticated. API key required." }, none)
  else
    match queryOutcome with
    | .error e => (.error (wrapSetPasswordExn (.apiErr e)), none)
    | .ok [] =>
        (.error { message := "User \x27" ++ username ++ "\x27 not found" }, none)
    | .ok (user :: _) =>
        match updateOutcome user.id newPassword with
        | .error e =>
            (.error (wrapSetPasswordExn (.apiErr e)), some (user.id, newPassword))
        | .ok _ => (.ok true, some (user.id, newPassword))

/-! Sample values used by the concrete witness theorems. -/

/-- Sample crypt primitives: each scheme reproduces the stored hash exactly
when the plaintext is that scheme's magic password, so verification succeeds
for `pw512`/`pw256`/`pw1` and fails for anything else. -/
def csSample : CryptSchemes where
  sha512_hash := fun p h => if p = "pw512" then h else p
  sha256_hash := fun p h => if p = "pw256" then h else p
  md5_hash := fun p h => if p = "pw1" then h else p

/-- Sample user with a SHA-512 crypt hash and no second factor. -/
def alice : UserRecord :=
  { id := 7, username := "alice", unixhash := some "$6$salt$hv" }

/-- Sample user with the second-factor flag set. -/
def bob2fa : UserRecord :=
  { id := 8, username := "bob", unixhash := some "$6$salt$hv",
    twofactor_auth_configured := true }

/-- Sample SMB-eligible user. -/
def carolSmb : UserRecord :=
  { id := 9, username := "carol", unixhash := some "$6$salt$hv", smb := true }

/-- Sample user whose stored hash carries an unrecognized (bcrypt) marker. -/
def daveBcrypt : UserRecord :=
  { id := 10, username := "dave", unixhash := some "$2b$12$xy" }

/-- Sample user with no stored hash at all. -/
def erinNoHash : UserRecord :=
  { id := 11, username := "erin" }

/-- C1: the resolver rejects a nonexistent username (zero query rows) and an
existing username whose password fails hash verification with the very same
`TrueNASAPIError` value, whose external message text is
`Invalid username or password` in both cases, so the two failure modes are
indistinguishable to the caller. -/
theorem login_enumeration_resistance
    (k : String) (cs : CryptSchemes) (smb : SmbOutcome) (user : UserRecord)
    (password : String) (otpToken : Option String) (storedHash : String)
    (hk : ¬k = "")
    (h2fa : ¬(user.twofactor_auth_configured ∧ optFalsy otpToken))
    (hsmb : ¬(user.smb ∧ smbSuccess smb))
    (hhash : user.unixhash = some storedHash)
    (hne : ¬storedHash = "")
    (hverify : verifyHash cs password storedHash = .ok false) :
    loginModel (some k) cs smb (.ok []) password otpToken
      = .error { message := "Invalid username or password", code := none,
                 reason := some "Invalid username or password" } ∧
    loginModel (some k) cs smb (.ok [user]) password otpToken
      = loginModel (some k) cs smb (.ok []) password otpToken := by
  have hgate : optFalsy (some k) = false := by simp [optFalsy, hk]
  refine ⟨?_, ?_⟩
  · unfold loginModel
    rw [hgate]
    rfl
  · unfold loginModel
    rw [hgate]
    simp only [Bool.false_eq_true, if_false, if_neg h2fa, if_neg hsmb, hhash,
      hverify, if_neg hne]

/-- Witness for C1 at a concrete input: the wrong password `bad` against
`alice`, whose stored hash uses the SHA-512 marker. -/
theorem login_enumeration_resistance_witness :
    (¬("svc-key" : String) = "" ∧
     ¬(alice.twofactor_auth_configured ∧ optFalsy none) ∧
     ¬(alice.smb ∧ smbSuccess .refused) ∧
     alice.unixhash = some "$6$salt$hv" ∧
     ¬("$6$salt$hv" : String) = "" ∧
     verifyHash csSample "bad" "$6$salt$hv" = .ok false) ∧
    (loginModel (some "svc-key") csSample .refused (.ok []) "bad" none
      = .error { message := "Invalid username or password", code := none,
                 reason := some "Invalid username or password" } ∧
     loginModel (some "svc-key") csSample .refused (.ok [alice]) "bad" none
      = loginModel (some "svc-key") csSample .refused (.ok []) "bad" none) :=
  ⟨⟨by decide, by decide, by decide, by decide, by decide, by decide⟩,
   login_enumeration_resistance "svc-key" csSample .refused alice "bad" none
     "$6$salt$hv" (by decide) (by decide) (by decide) (by decide) (by decide)
     (by decide)⟩

/-- C2: hash verification dispatches on the stored hash's leading scheme
marker, checked most-significant first — a `$6$` prefix selects SHA-512
crypt, `$5$` SHA-256 crypt, `$1$` MD5 crypt — returning true iff the
plaintext re-hashes under the selected scheme to the stored value, and any
other marker fails with the unsupported-scheme error. -/
theorem verifyHash_dispatch
    (cs : CryptSchemes) (password storedHash : String) :
    (pyStartsWith storedHash "$6$" = true →
      verifyHash cs password storedHash
        = .ok (cryptVerify cs.sha512_hash password storedHash) ∧
      (verifyHash cs password storedHash = .ok true ↔
        cs.sha512_hash password storedHash = storedHash)) ∧
    (pyStartsWith storedHash "$6$" = false → pyStartsWith storedHash "$5$" = true →
      verifyHash cs password storedHash
        = .ok (cryptVerify cs.sha256_hash password storedHash) ∧
      (verifyHash cs password storedHash = .ok true ↔
        cs.sha256_hash password storedHash = storedHash)) ∧
    (pyStartsWith storedHash "$6$" = false → pyStartsWith storedHash "$5$" = false →
      pyStartsWith storedHash "$1$" = true →
      verifyHash cs password storedHash
        = .ok (cryptVerify cs.md5_hash password storedHash) ∧
      (verifyHash cs password storedHash = .ok true ↔
        cs.md5_hash password storedHash = storedHash)) ∧
    (pyStartsWith storedHash "$6$" = false → pyStartsWith storedHash "$5$" = false →
      pyStartsWith storedHash "$1$" = false →
      verifyHash cs password storedHash
        = .error { message := "Unsupported hash format", code := none,
                   reason := some "Unsupported password hash format" }) := by
  refine ⟨fun h6 => ?_, fun h6 h5 => ?_, fun h6 h5 h1 => ?_, fun h6 h5 h1 => ?_⟩
  · simp [verifyHash, h6, cryptVerify]
  · simp [verifyHash, h6, h5, cryptVerify]
  · simp [verifyHash, h6, h5, h1, cryptVerify]
  · simp [verifyHash, h6, h5, h1]

/-- Witness for C2 at concrete inputs covering all four marker cases. -/
theorem verifyHash_dispatch_witness :
    (pyStartsWith "$6$s" "$6$" = true →
      verifyHash csSample "pw512" "$6$s" = .ok (cryptVerify csSample.sha512_hash "pw512" "$6$s") ∧
      (verifyHash csSample "pw512" "$6$s" = .ok true ↔
        csSample.sha512_hash "pw512" "$6$s" = "$6$s")) ∧
    (pyStartsWith "$5$s" "$6$" = false → pyStartsWith "$5$s" "$5$" = true →
      verifyHash csSample "x" "$5$s" = .ok (cryptVerify csSample.sha256_hash "x" "$5$s") ∧
      (verifyHash csSample "x" "$5$s" = .ok true ↔
        csSample.sha256_hash "x" "$5$s" = "$5$s")) ∧
    (pyStartsWith "$1$s" "$6$" = false → pyStartsWith "$1$s" "$5$" = false →
      pyStartsWith "$1$s" "$1$" = true →
      verifyHash csSample "pw1" "$1$s" = .ok (cryptVerify csSample.md5_hash "pw1" "$1$s") ∧
      (verifyHash csSample "pw1" "$1$s" = .ok true ↔
        csSample.md5_hash "pw1" "$1$s" = "$1$s")) ∧
    (pyStartsWith "$2b$x" "$6$" = false → pyStartsWith "$2b$x" "$5$" = false →
      pyStartsWith "$2b$x" "$1$" = false →
      verifyHash csSample "x" "$2b$x"
        = .error { message := "Unsupported hash format", code := none,
                   reason := some "Unsupported password hash format" }) :=
  ⟨(verifyHash_dispatch csSample "pw512" "$6$s").1,
   (verifyHash_dispatch csSample "x" "$5$s").2.1,
   (verifyHash_dispatch csSample "pw1" "$1$s").2.2.1,
   (verifyHash_dispatch csSample "x" "$2b$x").2.2.2⟩

/-- C5: a record whose second-factor flag is set, with no token supplied,
is rejected with the distinct second-factor-required error before any
password verification — the outcome is this error for every password, every
crypt primitive and every SMB probe outcome, and its text differs from the
invalid-credentials rejection. -/
theorem login_second_factor_gate
    (k : String) (cs : CryptSchemes) (smb : SmbOutcome) (user : UserRecord)
    (rest : List UserRecord) (password : String) (otpToken : Option String)
    (hk : ¬k = "")
    (h2fa : user.twofactor_auth_configured = true)
    (hotp : optFalsy otpToken = true) :
    loginModel (some k) cs smb (.ok (user :: rest)) password otpToken
      = .error { message := "OTP token required", code := none,
                 reason := some "Two-factor authentication required" } ∧
    ({ message := "OTP token required", code := none,
       reason := some "Two-factor authentication required" } : TrueNASAPIError)
      ≠ { message := "Invalid username or password", code := none,
          reason := some "Invalid username or password" } := by
  have hgate : optFalsy (some k) = false := by simp [optFalsy, hk]
  refine ⟨?_, by decide⟩
  unfold loginModel
  simp [hgate, h2fa, hotp]

/-- Witness for C5: `bob2fa` with no token and an otherwise correct
password is still rejected with the second-factor error. -/
theorem login_second_factor_gate_witness :
    (¬("svc-key" : String) = "" ∧
     bob2fa.twofactor_auth_configured = true ∧ optFalsy none = true) ∧
    (loginModel (some "svc-key") csSample .connected (.ok [bob2fa]) "pw512" none
      = .error { message := "OTP token required", code := none,
                 reason := some "Two-factor authentication required" } ∧
     ({ message := "OTP token required", code := none,
        reason := some "Two-factor authentication required" } : TrueNASAPIError)
      ≠ { message := "Invalid username or password", code := none,
          reason := some "Invalid username or password" }) :=
  ⟨⟨by decide, by decide, by decide⟩,
   login_second_factor_gate "svc-key" csSample .connected bob2fa [] "pw512" none
     (by decide) (by decide) (by decide)⟩

/-- C6: for an SMB-eligible record (and no blocking second-factor gate), a
successful delegated probe yields success with no hash comparison — the
outcome is `true` for every crypt primitive — while a failed probe (falsy
connect or exception) makes the login behave exactly as it would for an
ineligible record, falling through to hash verification instead of
rejecting; in particular a correct password still verifies after a probe
failure. -/
theorem login_smb_probe
    (k : String) (cs : CryptSchemes) (user : UserRecord)
    (rest : List UserRecord) (password : String) (otpToken : Option String)
    (hk : ¬k = "")
    (h2fa : ¬(user.twofactor_auth_configured ∧ optFalsy otpToken))
    (hsmbflag : user.smb = true) :
    (loginModel (some k) cs .connected (.ok (user :: rest)) password otpToken
      = .ok true) ∧
    (∀ smb : SmbOutcome, smbSuccess smb = false →
      loginModel (some k) cs smb (.ok (user :: rest)) password otpToken
        = loginModel (some k) cs .connected
            (.ok ({ user with smb := false } :: rest)) password otpToken) ∧
    (∀ smb : SmbOutcome, smbSuccess smb = false →
      ∀ storedHash : String, user.unixhash = some storedHash →
        ¬storedHash = "" → verifyHash cs password storedHash = .ok true →
        loginModel (some k) cs smb (.ok (user :: rest)) password otpToken
          = .ok true) := by
  have hgate : optFalsy (some k) = false := by simp [optFalsy, hk]
  refine ⟨?_, fun smb hfail => ?_, fun smb hfail storedHash hh hne hv => ?_⟩
  · unfold loginModel
    simp [hgate, h2fa, hsmbflag, smbSuccess]
  · unfold loginModel
    have h2fa2 : ¬(({ user with smb := false } : UserRecord).twofactor_auth_configured
        ∧ optFalsy otpToken) := h2fa
    simp [hgate, h2fa, h2fa2, hfail, hsmbflag]
  · unfold loginModel
    simp [hgate, h2fa, hfail, hh, hne, hv]

/-- Witness for C6: `carolSmb` with a succeeding probe logs in with any
password; with a refused probe and the correct password `pw512`, hash
verification still yields success. -/
theorem login_smb_probe_witness :
    (¬("svc-key" : String) = "" ∧
     ¬(carolSmb.twofactor_auth_configured ∧ optFalsy none) ∧
     carolSmb.smb = true) ∧
    (loginModel (some "svc-key") csSample .connected (.ok [carolSmb]) "anything" none
      = .ok true) ∧
    (smbSuccess .refused = false ∧
     loginModel (some "svc-key") csSample .refused (.ok [carolSmb]) "anything" none
      = loginModel (some "svc-key") csSample .connected
          (.ok [{ carolSmb with smb := false }]) "anything" none) ∧
    (verifyHash csSample "pw512" "$6$salt$hv" = .ok true ∧
     loginModel (some "svc-key") csSample .raised (.ok [carolSmb]) "pw512" none
      = .ok true) :=
  ⟨⟨by decide, by decide, by decide⟩,
   (login_smb_probe "svc-key" csSample carolSmb [] "anything" none
      (by decide) (by decide) (by decide)).1,
   ⟨by decide,
    (login_smb_probe "svc-key" csSample carolSmb [] "anything" none
       (by decide) (by decide) (by decide)).2.1 .refused (by decide)⟩,
   ⟨by decide,
    (login_smb_probe "svc-key" csSample carolSmb [] "pw512" none
       (by decide) (by decide) (by decide)).2.2 .raised (by decide) "$6$salt$hv"
       (by decide) (by decide) (by decide)⟩⟩

/-- Counterexample to C3 as stated: a record whose stored hash carries the
unrecognized bcrypt marker `$2b$` is rejected with the distinct
`Unsupported hash format` error, not with the invalid-credentials rejection
a wrong password produces, so the unsupported-scheme failure mode IS
surfaced as a distinct error to the caller. -/
theorem login_unsupported_marker_distinct :
    loginModel (some "svc-key") csSample .refused (.ok [daveBcrypt]) "bad" none
      = .error { message := "Unsupported hash format", code := none,
                 reason := some "Unsupported password hash format" } ∧
    loginModel (some "svc-key") csSample .refused (.ok [daveBcrypt]) "bad" none
      ≠ .error { message := "Invalid username or password", code := none,
                 reason := some "Invalid username or password" } := by
  exact ⟨by decide, by decide⟩

/-- C3 amended: a missing stored hash and an empty stored hash are both
mapped to the very invalid-credentials rejection a wrong password produces;
an unrecognized hash scheme marker, however, is surfaced as the distinct
`Unsupported hash format` error, not as invalid credentials. -/
theorem login_hash_failure_mapping
    (k : String) (cs : CryptSchemes) (smb : SmbOutcome) (user : UserRecord)
    (rest : List UserRecord) (password : String) (otpToken : Option String)
    (hk : ¬k = "")
    (h2fa : ¬(user.twofactor_auth_configured ∧ optFalsy otpToken))
    (hsmb : ¬(user.smb ∧ smbSuccess smb)) :
    (user.unixhash = none →
      loginModel (some k) cs smb (.ok (user :: rest)) password otpToken
        = .error { message := "Invalid username or password", code := none,
                   reason := some "Invalid username or password" }) ∧
    (user.unixhash = some "" →
      loginModel (some k) cs smb (.ok (user :: rest)) password otpToken
        = .error { message := "Invalid username or password", code := none,
                   reason := some "Invalid username or password" }) ∧
    (∀ storedHash : String, user.unixhash = some storedHash →
      ¬storedHash = "" →
      pyStartsWith storedHash "$6$" = false →
      pyStartsWith storedHash "$5$" = false →
      pyStartsWith storedHash "$1$" = false →
      loginModel (some k) cs smb (.ok (user :: rest)) password otpToken
        = .error { message := "Unsupported hash format", code := none,
                   reason := some "Unsupported password hash format" } ∧
      ({ message := "Unsupported hash format", code := none,
         reason := some "Unsupported password hash format" } : TrueNASAPIError)
        ≠ { message := "Invalid username or password", code := none,
            reason := some "Invalid username or password" }) := by
  have hgate : optFalsy (some k) = false := by simp [optFalsy, hk]
  refine ⟨fun hh => ?_, fun hh => ?_, fun storedHash hh hne h6 h5 h1 => ⟨?_, by decide⟩⟩
  · unfold loginModel
    simp [hgate, h2fa, hsmb, hh]
  · unfold loginModel
    simp [hgate, h2fa, hsmb, hh]
  · unfold loginModel
    simp [hgate, h2fa, hsmb, hh, hne, verifyHash, h6, h5, h1, wrapLoginExn]

/-- Witness for the amended C3: `erinNoHash` (no stored hash) is rejected as
invalid credentials; `daveBcrypt` (bcrypt marker) gets the distinct
unsupported-format error. -/
theorem login_hash_failure_mapping_witness :
    (¬("svc-key" : String) = "" ∧
     ¬(erinNoHash.twofactor_auth_configured ∧ optFalsy none) ∧
     ¬(erinNoHash.smb ∧ smbSuccess .refused) ∧ erinNoHash.unixhash = none ∧
     loginModel (some "svc-key") csSample .refused (.ok [erinNoHash]) "bad" none
      = .error { message := "Invalid username or password", code := none,
                 reason := some "Invalid username or password" }) ∧
    (daveBcrypt.unixhash = some "$2b$12$xy" ∧
     loginModel (some "svc-key") csSample .refused (.ok [daveBcrypt]) "bad" none
      = .error { message := "Unsupported hash format", code := none,
                 reason := some "Unsupported password hash format" }) :=
  ⟨⟨by decide, by decide, by decide, by decide,
    (login_hash_failure_mapping "svc-key" csSample .refused erinNoHash [] "bad" none
       (by decide) (by decide) (by decide)).1 (by decide)⟩,
   ⟨by decide,
    ((login_hash_failure_mapping "svc-key" csSample .refused daveBcrypt [] "bad" none
       (by decide) (by decide) (by decide)).2.2 "$2b$12$xy" (by decide) (by decide)
       (by decide) (by decide) (by decide)).1⟩⟩

/-- Python `result is None` on a decoded JSON value: true for a missing
`result` key and for JSON `null`, both of which decode to Python `None`. -/
def pyIsNone : Option JVal → Bool
  | none => true
  | some JVal.null => true
  | _ => false

/-- Model of `TrueNASClient.set_password` (truenas_client.py lines
168-185): the auth token — set only by a successful `login` on the same
client — is required by Python truthiness (`if not self._auth_token:`);
past that gate a single `user.set_password` call is issued with the
username and new password directly, with no user-id lookup; a raised
`TrueNASAPIError` from the call propagates, and the return value is
`result is True or result is None`. The second component records the
issued call's method and parameters (`none` when no call was issued). -/
def rpcSetPassword (authToken : Option String)
    (callOutcome : Except TrueNASAPIError (Option JVal))
    (username newPassword : String) :
    Except TrueNASAPIError Bool × Option (String × List JVal) :=
  if optFalsy authToken then
    (.error { message := "Not authenticated", reason := some "Must login first" },
     none)
  else
    match callOutcome with
    | .error e =>
        (.error e,
         some ("user.set_password", [JVal.str username, JVal.str newPassword]))
    | .ok r =>
        (.ok ((r == some (JVal.bool true)) || pyIsNone r),
         some ("user.set_password", [JVal.str username, JVal.str newPassword]))

/-- Counterexample to C7 as stated: the direct-dialect client's
`set_password` DOES require a prior successful `login` on the same client —
with the connection available but no auth token (which only `login` sets),
it raises `Not authenticated` / `Must login first` and issues no call at
all, rather than looking the user up and updating. -/
theorem rpcSetPassword_requires_login :
    rpcSetPassword none (.ok (some (JVal.bool true))) "alice" "newpw"
      = (.error { message := "Not authenticated", code := none,
                  reason := some "Must login first" }, none) := by
  exact rfl

/-- C7 amended: the two cited clients differ. The websocket client's
`set_password` consults no login or session state — the model takes no such
input because the source class stores none — and its only local gate is a
truthy (non-empty) API key, the service credential bootstrapped during
`connect`; given the key and a found user it issues `user.update` with
exactly the first row's numeric id and the new password, succeeding
precisely on a non-error envelope. The direct-dialect client's
`set_password`, by contrast, requires its auth token, which only a prior
successful `login` sets, and issues a single `user.set_password` call with
the username and new password directly — no id lookup. -/
theorem set_password_contract
    (k t username newPassword : String) (user : UserRecord)
    (rest : List UserRecord)
    (queryOutcome : Except TrueNASAPIError (List UserRecord))
    (updateOutcome : Int → String → Except TrueNASAPIError (Option JVal))
    (callOutcome : Except TrueNASAPIError (Option JVal))
    (hk : ¬k = "") (ht : ¬t = "") :
    (wsSetPassword none queryOutcome updateOutcome username newPassword
      = (.error { message := "Not authenticated. API key required." }, none)) ∧
    (queryOutcome = .ok (user :: rest) →
      (wsSetPassword (some k) queryOutcome updateOutcome username newPassword).2
        = some (user.id, newPassword) ∧
      ((wsSetPassword (some k) queryOutcome updateOutcome username newPassword).1
          = .ok true ↔ ∃ v, updateOutcome user.id newPassword = .ok v) ∧
      (∀ e : TrueNASAPIError, updateOutcome user.id newPassword = .error e →
        (wsSetPassword (some k) queryOutcome updateOutcome username newPassword).1
          = .error e)) ∧
    (rpcSetPassword none callOutcome username newPassword
      = (.error { message := "Not authenticated", code := none,
                  reason := some "Must login first" }, none)) ∧
    (∀ r : Option JVal, callOutcome = .ok r →
      (rpcSetPassword (some t) callOutcome username newPassword).2
        = some ("user.set_password", [JVal.str username, JVal.str newPassword]) ∧
      (rpcSetPassword (some t) callOutcome username newPassword).1
        = .ok ((r == some (JVal.bool true)) || pyIsNone r)) := by
  have hgk : optFalsy (some k) = false := by simp [optFalsy, hk]
  have hgt : optFalsy (some t) = false := by simp [optFalsy, ht]
  refine ⟨rfl, fun hq => ?_, rfl, fun r hr => ?_⟩
  · subst hq
    refine ⟨?_, ?_, ?_⟩
    · unfold wsSetPassword
      cases hu : updateOutcome user.id newPassword <;> simp [hgk, hu]
    · unfold wsSetPassword
      cases hu : updateOutcome user.id newPassword <;>
        simp [hgk, hu, wrapSetPasswordExn]
    · intro e he
      unfold wsSetPassword
      simp [hgk, he, wrapSetPasswordExn]
  · subst hr
    unfold rpcSetPassword
    simp [hgt]

/-- Witness for the amended C7, following scenario E on the websocket side:
the lookup finds `alice` with id `7`, the update is issued as `(7, newpw)`
and succeeds on a non-error envelope; on the direct-dialect side a call
with a login-established token issues `user.set_password` directly. -/
theorem set_password_contract_witness :
    (¬("svc-key" : String) = "" ∧ ¬("tok" : String) = "") ∧
    (wsSetPassword none (.ok [alice]) (fun _ _ => .ok (some (JVal.bool true)))
        "alice" "newpw"
      = (.error { message := "Not authenticated. API key required." }, none)) ∧
    ((wsSetPassword (some "svc-key") (.ok [alice])
        (fun _ _ => .ok (some (JVal.bool true))) "alice" "newpw").2
      = some (7, "newpw")) ∧
    ((wsSetPassword (some "svc-key") (.ok [alice])
        (fun _ _ => .ok (some (JVal.bool true))) "alice" "newpw").1
      = .ok true ↔ ∃ v, (Except.ok (some (JVal.bool true))
          : Except TrueNASAPIError (Option JVal)) = .ok v) ∧
    ((rpcSetPassword (some "tok") (.ok (some (JVal.bool true)))
        "alice" "newpw").2
      = some ("user.set_password", [JVal.str "alice", JVal.str "newpw"])) :=
  ⟨⟨by decide, by decide⟩,
   (set_password_contract "svc-key" "tok" "alice" "newpw" alice [] (.ok [alice])
      (fun _ _ => .ok (some (JVal.bool true))) (.ok (some (JVal.bool true)))
      (by decide) (by decide)).1,
   ((set_password_contract "svc-key" "tok" "alice" "newpw" alice [] (.ok [alice])
      (fun _ _ => .ok (some (JVal.bool true))) (.ok (some (JVal.bool true)))
      (by decide) (by decide)).2.1 rfl).1,
   ((set_password_contract "svc-key" "tok" "alice" "newpw" alice [] (.ok [alice])
      (fun _ _ => .ok (some (JVal.bool true))) (.ok (some (JVal.bool true)))
      (by decide) (by decide)).2.1 rfl).2.1,
   ((set_password_contract "svc-key" "tok" "alice" "newpw" alice [] (.ok [alice])
      (fun _ _ => .ok (some (JVal.bool true))) (.ok (some (JVal.bool true)))
      (by decide) (by decide)).2.2.2 (some (JVal.bool true)) rfl).1⟩

/-- A live websocket client holding a session identifier and an API key. -/
def wsLive : WSClient :=
  { connected := true, socketOpen := true, requestId := 3,
    sessionId := some "test-session", apiKey := some "svc-key" }

/-- A never-connected JSON-RPC client still holding an auth token. -/
def rpcFresh : RPCClient :=
  { connected := false, socketOpen := false, messageId := 0,
    authToken := some "tok" }

/-- Counterexample to C8 as stated: `disconnect` on the websocket client
does NOT clear all in-memory credential/session state — after disconnecting
a live client whose session identifier is `test-session` and whose API key
is `svc-key`, both values are still present in the client state. -/
theorem wsDisconnect_retains_session :
    (wsDisconnect wsLive).sessionId = some "test-session" ∧
    (wsDisconnect wsLive).apiKey = some "svc-key" := by
  exact ⟨rfl, rfl⟩

/-- C8 amended: `disconnect` is a total function (never raises, exceptions
from closing are swallowed), is idempotent, may be called before any
successful connect or after a failed one, closes the socket and drops the
socket reference in both clients, and the JSON-RPC client clears its auth
token — but the websocket client's session identifier and API key are
retained, not cleared. The hypotheses say only that a client without a
socket reference holds no open socket, which every reachable state
satisfies. -/
theorem disconnect_idempotent_total
    (st : WSClient) (rt : RPCClient)
    (hws : st.connected = false → st.socketOpen = false)
    (hrpc : rt.connected = false → rt.socketOpen = false) :
    wsDisconnect (wsDisconnect st) = wsDisconnect st ∧
    (wsDisconnect st).connected = false ∧
    (wsDisconnect st).socketOpen = false ∧
    (wsDisconnect st).sessionId = st.sessionId ∧
    (wsDisconnect st).apiKey = st.apiKey ∧
    rpcDisconnect (rpcDisconnect rt) = rpcDisconnect rt ∧
    (rpcDisconnect rt).connected = false ∧
    (rpcDisconnect rt).socketOpen = false ∧
    (rpcDisconnect rt).authToken = none := by
  unfold wsDisconnect rpcDisconnect
  cases hc : st.connected <;> cases hr : rt.connected <;>
    simp_all [hws, hrpc]

/-- Witness for the amended C8: a live websocket client and a never-connected
JSON-RPC client, disconnected concretely. -/
theorem disconnect_idempotent_total_witness :
    ((wsLive.connected = false → wsLive.socketOpen = false) ∧
     (rpcFresh.connected = false → rpcFresh.socketOpen = false)) ∧
    (wsDisconnect (wsDisconnect wsLive) = wsDisconnect wsLive ∧
     (rpcDisconnect rpcFresh).authToken = none) :=
  ⟨⟨by decide, by decide⟩,
   (disconnect_idempotent_total wsLive rpcFresh (by decide) (by decide)).1,
   (disconnect_idempotent_total wsLive rpcFresh
      (by decide) (by decide)).2.2.2.2.2.2.2.2⟩

/-- Helper: the websocket response loop consumes and discards any run of
messages whose correlation id differs from the awaited one. -/
lemma recvLoop_skip (rid : String) (pre tail : List WireIn)
    (hpre : ∀ x ∈ pre, ∃ r2 : WSResponse, x = .msg r2 ∧ r2.id ≠ some rid) :
    recvLoop rid (pre ++ tail) = recvLoop rid tail := by
  induction pre with
  | nil => rfl
  | cons x xs ih =>
      obtain ⟨r2, rfl, hne⟩ := hpre x (List.mem_cons_self x xs)
      show recvLoop rid (.msg r2 :: (xs ++ tail)) = recvLoop rid tail
      rw [recvLoop, if_neg hne, if_neg (fun h => hne h.2)]
      exact ih fun y hy => hpre y (List.mem_cons_of_mem _ hy)

/-- A connected direct-dialect client with a fresh counter. -/
def rpcSt0 : RPCClient :=
  { connected := true, socketOpen := true, messageId := 0 }

/-- An unsolicited server push carrying correlation id `999`. -/
def pushMsg : RPCResponse := { id := some 999, result := some (JVal.str "push") }

/-- The true response to the request, carrying correlation id `1`. -/
def realMsg : RPCResponse := { id := some 1, result := some (JVal.str "real") }

/-- Counterexample to C4 as stated: the direct-dialect client's `_call`
reads exactly one incoming message and returns it without any correlation
check — on a stream whose first message is an unsolicited push with id
`999`, the call that assigned id `1` (visible in the sent payload) returns
the push's payload instead of discarding it. -/
theorem rpcCall_ignores_correlation :
    (rpcCall rpcSt0 [.msg pushMsg, .msg realMsg] "user.query" none).1
      = .ok (some (JVal.str "push")) ∧
    (rpcCall rpcSt0 [.msg pushMsg, .msg realMsg] "user.query" none).2.2.2
      = some { idNum := 1, method := "user.query", params := none } ∧
    pushMsg.id = some 999 ∧ (999 : Int) ≠ 1 := by
  exact ⟨rfl, rfl, rfl, by decide⟩

/-- C4 amended: in the session-handshake dialect the response returned by
`_call` is the first incoming message whose correlation id equals the id
assigned to the request, and every earlier non-matching message is read and
discarded, never returned; the direct-dialect client, by contrast, returns
the single next incoming message with no correlation-id comparison at all
(second conjunct: an error-free first message is returned as the result
whatever its id). -/
theorem call_correlation
    (st : WSClient) (hconn : st.connected = true)
    (pre rest : List WireIn) (r : WSResponse) (method : String)
    (params : List JVal)
    (hpre : ∀ x ∈ pre, ∃ r2 : WSResponse,
      x = .msg r2 ∧ r2.id ≠ some (toString (st.requestId + 1)))
    (hr : r.id = some (toString (st.requestId + 1))) :
    (wsCall st (pre ++ .msg r :: rest) method params
      = (runOp wrapCallExn (processResponse r),
         { st with requestId := st.requestId + 1 }, rest,
         some { idNum := st.requestId + 1, id := toString (st.requestId + 1),
                method := method, params := params })) ∧
    (∀ (rt : RPCClient) (r0 : RPCResponse) (rtail : List RPCIn)
       (m : String) (p : Option (List JVal)),
      rt.connected = true → r0.error = none →
      rpcCall rt (.msg r0 :: rtail) m p
        = (.ok r0.result, { rt with messageId := rt.messageId + 1 }, rtail,
           some { idNum := rt.messageId + 1, method := m, params := p })) := by
  constructor
  · unfold wsCall
    rw [hconn]
    simp only [Bool.true_eq_false, if_false]
    rw [recvLoop_skip _ pre _ hpre, recvLoop, if_pos hr]
  · intro rt r0 rtail m p hrc hr0
    unfold rpcCall
    rw [hrc]
    simp only [Bool.true_eq_false, if_false, hr0]

/-- Witness for the amended C4: on a fresh connected client, a stream with
one unsolicited push (id `7`) ahead of the true response (id `1`, result
`42`) yields the true response's result, with the push discarded; and a
direct-dialect call returns the next message whatever its id. -/
theorem call_correlation_witness :
    ((∀ x ∈ [WireIn.msg { id := some "7", msg := some "changed" }],
        ∃ r2 : WSResponse, x = .msg r2 ∧ r2.id ≠ some (toString (0 + 1))) ∧
     ({ id := some "1", msg := some "result",
        result := some (JVal.num 42) } : WSResponse).id
       = some (toString (0 + 1))) ∧
    (wsCall { connected := true, socketOpen := true, requestId := 0 }
        [WireIn.msg { id := some "7", msg := some "changed" },
         WireIn.msg { id := some "1", msg := some "result",
                      result := some (JVal.num 42) }] "user.query" []
      = (runOp wrapCallExn (processResponse
           { id := some "1", msg := some "result",
             result := some (JVal.num 42) }),
         { connected := true, socketOpen := true, requestId := 0 + 1 }, [],
         some { idNum := 0 + 1, id := toString (0 + 1),
                method := "user.query", params := [] })) :=
  ⟨⟨by
      intro x hx
      rcases List.mem_singleton.mp hx with rfl
      exact ⟨_, rfl, by decide⟩, by decide⟩,
   ((call_correlation { connected := true, socketOpen := true, requestId := 0 }
      rfl [WireIn.msg { id := some "7", msg := some "changed" }] []
      { id := some "1", msg := some "result", result := some (JVal.num 42) }
      "user.query" []
      (by
        intro x hx
        rcases List.mem_singleton.mp hx with rfl
        exact ⟨_, rfl, by decide⟩)
      (by decide)).1)⟩

/-- Helper: a connected websocket `_call` always increments the counter by
one — whether the call succeeds or fails — keeps the connection flag, and
sends the new counter value (stringified) as the request id. -/
lemma wsCall_state (st : WSClient) (stream : List WireIn) (m : String)
    (p : List JVal) (hconn : st.connected = true) :
    (wsCall st stream m p).2.1 = { st with requestId := st.requestId + 1 } ∧
    (wsCall st stream m p).2.2.2
      = some { idNum := st.requestId + 1, id := toString (st.requestId + 1),
               method := m, params := p } := by
  unfold wsCall
  rw [hconn]
  simp only [Bool.true_eq_false, if_false]
  rcases recvLoop (toString (st.requestId + 1)) stream with ⟨res, rest⟩
  cases res <;> simp

/-- Helper: sent-id characterization of a websocket call sequence — the
numeric ids are consecutive counter values starting right after the initial
counter, the final counter advanced by the number of calls, the connection
flag is preserved, and every wire id string renders its numeric id. -/
lemma wsCallSeq_ids (calls : List (String × List JVal × List WireIn)) :
    ∀ st : WSClient, st.connected = true →
      ((wsCallSeq st calls).1.map (fun s => s.idNum)
        = (List.range calls.length).map (fun i => st.requestId + 1 + i)) ∧
      (wsCallSeq st calls).2.requestId = st.requestId + calls.length ∧
      (wsCallSeq st calls).2.connected = true ∧
      (∀ s ∈ (wsCallSeq st calls).1, s.id = toString s.idNum) := by
  induction calls with
  | nil =>
      intro st h
      refine ⟨rfl, rfl, h, fun s hs => absurd hs (List.not_mem_nil s)⟩
  | cons c cs ih =>
      intro st h
      obtain ⟨m, p, strm⟩ := c
      have hst := wsCall_state st strm m p h
      obtain ⟨ih1, ih2, ih3, ih4⟩ :=
        ih { st with requestId := st.requestId + 1 } h
      have hshape : wsCallSeq st ((m, p, strm) :: cs)
          = ((wsCall st strm m p).2.2.2.toList
              ++ (wsCallSeq (wsCall st strm m p).2.1 cs).1,
             (wsCallSeq (wsCall st strm m p).2.1 cs).2) := rfl
      refine ⟨?_, ?_, ?_, ?_⟩
      · rw [hshape]
        simp only [List.map_append, hst.2, hst.1, Option.toList_some,
          List.map_cons, List.map_nil, ih1]
        simp only [List.length_cons, List.range_succ_eq_map, List.map_cons,
          List.map_map, List.singleton_append, Nat.add_zero]
        refine congrArg₂ _ rfl ?_
        apply List.map_congr_left
        intro i _
        simp only [Function.comp_apply, Nat.succ_eq_add_one]
        omega
      · rw [hshape]
        simp only [hst.1, ih2, List.length_cons]
        omega
      · rw [hshape]
        simp only [hst.1]
        exact ih3
      · rw [hshape]
        intro s hs
        rcases List.mem_append.mp hs with hs1 | hs2
        · rw [hst.2] at hs1
          rcases List.mem_singleton.mp (by simpa using hs1) with rfl
          rfl
        · rw [hst.1] at hs2
          exact ih4 s hs2

/-- Helper: a connected direct-dialect `_call` likewise always increments
its counter by one and sends the new value as the request id. -/
lemma rpcCall_state (st : RPCClient) (stream : List RPCIn) (m : String)
    (p : Option (List JVal)) (hconn : st.connected = true) :
    (rpcCall st stream m p).2.1 = { st with messageId := st.messageId + 1 } ∧
    (rpcCall st stream m p).2.2.2
      = some { idNum := st.messageId + 1, method := m, params := p } := by
  unfold rpcCall
  rw [hconn]
  simp only [Bool.true_eq_false, if_false]
  rcases stream with _ | ⟨x, rest⟩
  · exact ⟨rfl, rfl⟩
  · cases x with
    | badJson s => exact ⟨rfl, rfl⟩
    | msg r => rcases hE : r.error with _ | e <;> simp [hE]

/-- Helper: sent-id characterization of a direct-dialect call sequence. -/
lemma rpcCallSeq_ids (calls : List (String × Option (List JVal) × List RPCIn)) :
    ∀ st : RPCClient, st.connected = true →
      ((rpcCallSeq st calls).1.map (fun s => s.idNum)
        = (List.range calls.length).map (fun i => st.messageId + 1 + i)) ∧
      (rpcCallSeq st calls).2.messageId = st.messageId + calls.length ∧
      (rpcCallSeq st calls).2.connected = true := by
  induction calls with
  | nil => intro st h; exact ⟨rfl, rfl, h⟩
  | cons c cs ih =>
      intro st h
      obtain ⟨m, p, strm⟩ := c
      have hst := rpcCall_state st strm m p h
      obtain ⟨ih1, ih2, ih3⟩ :=
        ih { st with messageId := st.messageId + 1 } h
      have hshape : rpcCallSeq st ((m, p, strm) :: cs)
          = ((rpcCall st strm m p).2.2.2.toList
              ++ (rpcCallSeq (rpcCall st strm m p).2.1 cs).1,
             (rpcCallSeq (rpcCall st strm m p).2.1 cs).2) := rfl
      refine ⟨?_, ?_, ?_⟩
      · rw [hshape]
        simp only [List.map_append, hst.2, hst.1, Option.toList_some,
          List.map_cons, List.map_nil, ih1]
        simp only [List.length_cons, List.range_succ_eq_map, List.map_cons,
          List.map_map, List.singleton_append, Nat.add_zero]
        refine congrArg₂ _ rfl ?_
        apply List.map_congr_left
        intro i _
        simp only [Function.comp_apply, Nat.succ_eq_add_one]
        omega
      · rw [hshape]
        simp only [hst.1, ih2, List.length_cons]
        omega
      · rw [hshape]
        simp only [hst.1]
        exact ih3

/-- C9: on a freshly constructed connected client of either dialect (counter
field initialized to zero), a sequence of `_call` invocations — failing ones
included, since the list places no constraint on any call's stream — assigns
the correlation ids `1, 2, ..., n` in order: the id sequence is exactly the
consecutive counter values, hence strictly increasing with no id ever
reused, and the websocket dialect sends each id as its decimal string. -/
theorem correlation_ids_monotone
    (calls : List (String × List JVal × List WireIn))
    (rcalls : List (String × Option (List JVal) × List RPCIn))
    (st : WSClient) (rt : RPCClient)
    (hws : st.connected = true) (hws0 : st.requestId = 0)
    (hrpc : rt.connected = true) (hrpc0 : rt.messageId = 0) :
    ((wsCallSeq st calls).1.map (fun s => s.idNum)
      = (List.range calls.length).map (fun i => i + 1)) ∧
    List.Pairwise (fun a b => a < b)
      ((wsCallSeq st calls).1.map (fun s => s.idNum)) ∧
    ((wsCallSeq st calls).1.map (fun s => s.idNum)).Nodup ∧
    (∀ s ∈ (wsCallSeq st calls).1, s.id = toString s.idNum) ∧
    (wsCallSeq st calls).2.requestId = calls.length ∧
    ((rpcCallSeq rt rcalls).1.map (fun s => s.idNum)
      = (List.range rcalls.length).map (fun i => i + 1)) ∧
    List.Pairwise (fun a b => a < b)
      ((rpcCallSeq rt rcalls).1.map (fun s => s.idNum)) ∧
    ((rpcCallSeq rt rcalls).1.map (fun s => s.idNum)).Nodup ∧
    (rpcCallSeq rt rcalls).2.messageId = rcalls.length := by
  obtain ⟨w1, w2, _, w4⟩ := wsCallSeq_ids calls st hws
  obtain ⟨r1, r2, _⟩ := rpcCallSeq_ids rcalls rt hrpc
  rw [hws0] at w1 w2
  rw [hrpc0] at r1 r2
  have hform : ∀ n : ℕ, (List.range n).map (fun i => 0 + 1 + i)
      = (List.range n).map (fun i => i + 1) := by
    intro n
    apply List.map_congr_left
    intro i _
    omega
  have wpair : List.Pairwise (fun a b => a < b)
      ((wsCallSeq st calls).1.map (fun s => s.idNum)) := by
    rw [w1, hform]
    exact (List.pairwise_lt_range _).map _ (fun a b hab => by omega)
  have rpair : List.Pairwise (fun a b => a < b)
      ((rpcCallSeq rt rcalls).1.map (fun s => s.idNum)) := by
    rw [r1, hform]
    exact (List.pairwise_lt_range _).map _ (fun a b hab => by omega)
  refine ⟨by rw [w1, hform], wpair,
    wpair.imp (fun hab => Nat.ne_of_lt hab), w4, by simpa using w2,
    by rw [r1, hform], rpair,
    rpair.imp (fun hab => Nat.ne_of_lt hab), by simpa using r2⟩

/-- Witness for C9: three websocket calls and two direct-dialect calls on
fresh connected clients. -/
theorem correlation_ids_monotone_witness :
    (({ connected := true, socketOpen := true, requestId := 0 } : WSClient).connected
        = true ∧
     ({ connected := true, socketOpen := true, requestId := 0 } : WSClient).requestId
        = 0 ∧
     rpcSt0.connected = true ∧ rpcSt0.messageId = 0) ∧
    ((wsCallSeq { connected := true, socketOpen := true, requestId := 0 }
        [("ping", [], []), ("ping", [], []), ("ping", [], [])]).1.map
          (fun s => s.idNum)
      = (List.range 3).map (fun i => i + 1)) ∧
    ((rpcCallSeq rpcSt0 [("ping", none, []), ("ping", none, [])]).1.map
        (fun s => s.idNum)
      = (List.range 2).map (fun i => i + 1)) :=
  ⟨⟨rfl, rfl, rfl, rfl⟩,
   (correlation_ids_monotone
      [("ping", [], []), ("ping", [], []), ("ping", [], [])]
      [("ping", none, []), ("ping", none, [])]
      { connected := true, socketOpen := true, requestId := 0 } rpcSt0
      rfl rfl rfl rfl).1,
   (correlation_ids_monotone
      [("ping", [], []), ("ping", [], []), ("ping", [], [])]
      [("ping", none, []), ("ping", none, [])]
      { connected := true, socketOpen := true, requestId := 0 } rpcSt0
      rfl rfl rfl rfl).2.2.2.2.2.1⟩

/-- C10: every public websocket-client operation ends in an `except` chain
that lets a `TrueNASAPIError` pass unchanged and wraps every other
exception — transport error, JSON decode failure, or arbitrary unexpected
exception — into a `TrueNASAPIError` with that operation's descriptive
message, so the boundary result type is `Except TrueNASAPIError _` and a
caller never observes an unwrapped lower-level exception: a normal value
passes `runOp` untouched and every exception leaves as the wrapped
`TrueNASAPIError`. -/
theorem boundary_single_error_type
    (s : String) (e : TrueNASAPIError) (a : Option JVal) (exn : PyExn) :
    (wrapCallExn (.wsExn s) = { message := "WebSocket error: " ++ s } ∧
     wrapCallExn (.jsonExn s) = { message := "Invalid JSON response: " ++ s } ∧
     wrapCallExn (.apiErr e) = e ∧
     wrapCallExn (.otherExn s) = { message := "API call failed: " ++ s }) ∧
    (wrapConnectExn (.wsExn s) = { message := "Failed to connect: " ++ s } ∧
     wrapConnectExn (.jsonExn s)
       = { message := "Invalid response during connect: " ++ s } ∧
     wrapConnectExn (.apiErr e) = e ∧
     wrapConnectExn (.otherExn s) = { message := "Connection failed: " ++ s }) ∧
    (wrapLoginExn (.wsExn s) = { message := "Authentication failed: " ++ s } ∧
     wrapLoginExn (.jsonExn s) = { message := "Authentication failed: " ++ s } ∧
     wrapLoginExn (.apiErr e) = e ∧
     wrapLoginExn (.otherExn s) = { message := "Authentication failed: " ++ s }) ∧
    (wrapSetPasswordExn (.wsExn s)
       = { message := "Password change request failed: " ++ s } ∧
     wrapSetPasswordExn (.jsonExn s)
       = { message := "Password change request failed: " ++ s } ∧
     wrapSetPasswordExn (.apiErr e) = e ∧
     wrapSetPasswordExn (.otherExn s)
       = { message := "Password change request failed: " ++ s }) ∧
    (runOp wrapCallExn (.ok a) = .ok a ∧
     runOp wrapCallExn (Except.error exn : Except PyExn (Option JVal))
       = .error (wrapCallExn exn) ∧
     runOp wrapConnectExn (Except.error exn : Except PyExn (Option JVal))
       = .error (wrapConnectExn exn) ∧
     runOp wrapLoginExn (Except.error exn : Except PyExn (Option JVal))
       = .error (wrapLoginExn exn) ∧
     runOp wrapSetPasswordExn (Except.error exn : Except PyExn (Option JVal))
       = .error (wrapSetPasswordExn exn)) :=
  ⟨⟨rfl, rfl, rfl, rfl⟩, ⟨rfl, rfl, rfl, rfl⟩, ⟨rfl, rfl, rfl, rfl⟩,
   ⟨rfl, rfl, rfl, rfl⟩, ⟨rfl, rfl, rfl, rfl, rfl⟩⟩

end TrueNASPC
